import Mathlib

/-!
Verification of the bar-chart visual in `src/custom-src/barchart/src/visual.ts`.

The TypeScript source is shallowly embedded as follows.

* Host-supplied payloads use `Option` wherever the JavaScript value may be
  `undefined`: `options.dataViews`, the `categorical` field, the `categories`
  and `values` arrays, and a category column metadata `source`.
* Array indexing `a[i]` is `List.get?`: an out-of-bounds read yields `none`
  (the JavaScript `undefined`), and dereferencing a property of such an
  `undefined` value is a thrown `TypeError`, embedded as `Except.error`.
* Numbers are `ℚ`; category labels are `String`.  A data-point field that can
  hold a JavaScript `undefined` (an out-of-bounds read of the category or
  value array) is an `Option`.
* The host color palette is a function from the category key to a color
  string, which models the palette as memoized per key.  The host
  selection-id builder issues handles whose underlying identity is the row
  index inside the category column; the `nonce` field models the fact that
  each host session hands out fresh wrapper objects.
* The rendering library (d3 v3) is an out-of-scope collaborator; its scale
  capabilities are embedded by their documented semantics: a linear scale
  interpolates between the range endpoints over the domain, and an ordinal
  band scale lays its domain — the unique category keys in first-occurrence
  order, as v3 `ordinal.domain` registers each unseen value — out as evenly
  spaced bands over the range with the given inner and outer padding ratios.
  The pixel rounding of `rangeRoundBands` is abstracted to exact rational
  band arithmetic.
* The decimal literals of the source (`0.04`, `0.1`, `0.2`, `0.5`) are
  written as the exact rationals `4 / 100`, `1 / 10`, `2 / 10`, `1 / 2`.
-/

/-- A selection handle issued by
`host.createSelectionIdBuilder().withCategory(category, i).createSelectionId()`.
Its underlying identity is the row index `index`; `nonce` models the fresh
wrapper object issued per builder call (per host session in this embedding). -/
structure SelectionId where
  nonce : ℕ
  index : ℕ
deriving DecidableEq

/-- The host services used by the visual: the color palette
(`host.colorPalette.getColor(key).value`, a memoized function of the key,
which is `undefined` when the category read was out of bounds) and the
selection-id builder session counter. -/
structure Host where
  getColor : Option String → String
  builderNonce : ℕ

/-- A category column: `categorical.categories[i]`, with its metadata
`source` (abstracted to presence) and its value array. -/
structure DataViewCategoryColumn where
  source : Option Unit
  values : List String
deriving DecidableEq

/-- A value column: `categorical.values[i]`, with its value array and the
host-reported local maximum `maxLocal` (present per the host contract). -/
structure DataViewValueColumn where
  values : List ℚ
  maxLocal : ℚ
deriving DecidableEq

/-- The categorical shape of a data view. Either array may be absent. -/
structure DataViewCategorical where
  categories : Option (List DataViewCategoryColumn)
  values : Option (List DataViewValueColumn)
deriving DecidableEq

/-- A host data view; only the categorical mapping is used by this visual. -/
structure DataView where
  categorical : Option DataViewCategorical
deriving DecidableEq

/-- The host viewport. -/
structure Viewport where
  width : ℚ
  height : ℚ
deriving DecidableEq

/-- The update payload handed to `Visual.update` / `visualTransform`. -/
structure VisualUpdateOptions where
  dataViews : Option (List DataView)
  viewport : Viewport

/-- One bar-chart data point, as pushed by the `visualTransform` loop.
`category` and `value` are `none` when the corresponding array index was out
of bounds (the JavaScript value is then `undefined`). -/
structure BarChartDataPoint where
  value : Option ℚ
  category : Option String
  color : String
  selectionID : SelectionId
deriving DecidableEq

/-- The view model returned by `visualTransform`. -/
structure BarChartViewModel where
  dataPoints : List BarChartDataPoint
  dataMax : ℚ
deriving DecidableEq

deriving instance DecidableEq for Except

/-- The empty "no data" view model `dataInfo` of `visualTransform`. -/
def emptyViewModel : BarChartViewModel := { dataPoints := [], dataMax := 0 }

/-- `Modelled from the spec:` the settings module (`src/settings.ts`) is not
part of the provided sources; per the spec the parsed settings are
`{ dataPoint: { showAxis: boolean } }` with default `showAxis = false`. -/
structure DataPointSettings where
  showAxis : Bool
deriving DecidableEq

/-- `Modelled from the spec:` the parsed visual settings object. -/
structure VisualSettings where
  dataPoint : DataPointSettings
deriving DecidableEq

/-- Embedding of `visualTransform` (visual.ts lines 63-108).  The guard at
lines 76-82 is evaluated in source order with JavaScript semantics: an empty
`categories` array is truthy, so the guard then dereferences
`categories[0].source` on `undefined` and throws; an empty `values` array is
truthy and passes the guard, after which `values[0]` is `undefined` and the
loop header dereferences `dataValue.values` and throws. -/
def visualTransform (options : VisualUpdateOptions) (host : Host) :
    Except String BarChartViewModel :=
  match options.dataViews with
  | none => .ok emptyViewModel
  | some dataViews =>
    match dataViews.head? with
    | none => .ok emptyViewModel
    | some dv =>
      match dv.categorical with
      | none => .ok emptyViewModel
      | some categorical =>
        match categorical.categories with
        | none => .ok emptyViewModel
        | some categories =>
          match categories.head? with
          | none => .error "TypeError: cannot read source of undefined"
          | some category =>
            match category.source with
            | none => .ok emptyViewModel
            | some _ =>
              match categorical.values with
              | none => .ok emptyViewModel
              | some values =>
                match values.head? with
                | none => .error "TypeError: cannot read values of undefined"
                | some dataValue =>
                  let len := max category.values.length dataValue.values.length
                  let dataPoints : List BarChartDataPoint :=
                    (List.range len).map (fun i =>
                      { category := category.values.get? i
                        value := dataValue.values.get? i
                        color := host.getColor (category.values.get? i)
                        selectionID := { nonce := host.builderNonce, index := i } })
                  .ok { dataPoints := dataPoints, dataMax := dataValue.maxLocal }

/-- d3 v3 linear scale with domain `[d0, d1]` and range `[r0, r1]`, applied
to `v` (library collaborator, embedded by its documented semantics). -/
def linearScale (d0 d1 r0 r1 v : ℚ) : ℚ :=
  r0 + (v - d0) * (r1 - r0) / (d1 - d0)

/-- Step between bands of a d3 v3 ordinal band scale over `[0, w]` with `n`
domain entries, inner padding ratio `p` and outer padding ratio `o`. -/
def bandStep (n : ℕ) (w p o : ℚ) : ℚ := w / ((n : ℚ) - p + 2 * o)

/-- Band width (`xScale.rangeBand()`) of the ordinal band scale. -/
def rangeBandWidth (n : ℕ) (w p o : ℚ) : ℚ := bandStep n w p o * (1 - p)

/-- Band start (`xScale(key)`) of the `i`-th domain entry. -/
def bandPosition (n : ℕ) (w p o : ℚ) (i : ℕ) : ℚ := bandStep n w p o * (o + (i : ℚ))

/-- Geometry attributes set on one bar rectangle (visual.ts lines 179-185).
`height` and `y` are `none` when the data point value was the JavaScript
`undefined` (the arithmetic then yields NaN). -/
structure BarAttrs where
  width : ℚ
  height : Option ℚ
  x : ℚ
  y : Option ℚ
  fill : String
deriving DecidableEq

/-- The observable outcome of one `Visual.update` call: root surface size,
plotting height, axis font size and placement, the reconciled bars and the
enter/exit counts against the previous bar-element count. -/
structure RenderResult where
  svgWidth : ℚ
  svgHeight : ℚ
  plotHeight : ℚ
  fontSize : ℚ
  axisTranslateY : ℚ
  bars : List BarAttrs
  enteredCount : ℕ
  exitedCount : ℕ
  barCount : ℕ
deriving DecidableEq

/-- d3 v3 `ordinal.domain(values)`: the unique values in first-occurrence
order (the v3 source inserts a value into the domain only when unseen). -/
def ordinalDomain {α : Type} [DecidableEq α] (keys : List α) : List α :=
  keys.foldl (fun dom k => if k ∈ dom then dom else dom ++ [k]) []

/-- Embedding of `Visual.update` (visual.ts lines 133-201).  `settings`
stands for the result of `Visual.parseSettings` (its module is not under the
provided sources); `prevBarCount` is the number of bar elements left in the
bar container by the previous update.  A `TypeError` thrown inside
`visualTransform` propagates out of `update`. -/
def Visual.update (options : VisualUpdateOptions) (settings : VisualSettings)
    (prevBarCount : ℕ) (host : Host) : Except String RenderResult :=
  (visualTransform options host).map (fun transformedData =>
    let width := options.viewport.width
    let svgHeight := options.viewport.height
    let height := if settings.dataPoint.showAxis then svgHeight - 25 else svgHeight
    let fontSize := min height width * (4 / 100)
    let yScale := fun v => linearScale 0 transformedData.dataMax height 0 v
    let xdomain := ordinalDomain (transformedData.dataPoints.map (fun d => d.category))
    let n := xdomain.length
    let bars := transformedData.dataPoints.map (fun d =>
      { width := rangeBandWidth n width (1 / 10) (2 / 10)
        height := d.value.map (fun v => height - yScale v)
        x := bandPosition n width (1 / 10) (2 / 10) (xdomain.indexOf d.category)
        y := d.value.map yScale
        fill := d.color })
    let entered := transformedData.dataPoints.length -
      min transformedData.dataPoints.length prevBarCount
    let exited := prevBarCount -
      min transformedData.dataPoints.length prevBarCount
    { svgWidth := width
      svgHeight := svgHeight
      plotHeight := height
      fontSize := fontSize
      axisTranslateY := height
      bars := bars
      enteredCount := entered
      exitedCount := exited
      barCount := prevBarCount + entered - exited })

/-- The selection handle sent to `selectionManager.select` when the bar at
index `clicked` is clicked (visual.ts line 189). -/
def onBarClickToggles (dataPoints : List BarChartDataPoint) (clicked : ℕ) :
    Option SelectionId :=
  (dataPoints.get? clicked).map BarChartDataPoint.selectionID

/-- The `fill-opacity` of each of the `n` bars after the continuation of the
selection toggle fires with active-selection set `ids` (visual.ts lines
190-197): every bar is set to `0.5` when `ids` is non-empty and to `1`
otherwise, then the clicked bar is set back to `1`. -/
def clickContinuation (n clicked : ℕ) (ids : List SelectionId) : List ℚ :=
  ((List.range n).map (fun _ => if 0 < ids.length then (1 / 2 : ℚ) else 1)).set clicked 1

/-! ### Sample host and payloads used for concrete evaluations -/

/-- A sample host: a constant palette (memoized trivially) and session 0. -/
def sampleHost : Host := { getColor := fun _ => "#111111", builderNonce := 0 }

/-- Sample category column with labels Q1, Q2, Q3. -/
def sampleCatCol : DataViewCategoryColumn :=
  { source := some (), values := ["Q1", "Q2", "Q3"] }

/-- Sample value column with values 10, 20, 5 and host-reported maximum 20. -/
def sampleValCol : DataViewValueColumn := { values := [10, 20, 5], maxLocal := 20 }

/-- The well-formed sample payload of the end-to-end scenario:
viewport 400 by 300, categories Q1 Q2 Q3, values 10 20 5, dataMax 20. -/
def sampleOptions : VisualUpdateOptions :=
  { dataViews := some
      [{ categorical := some
          { categories := some [sampleCatCol], values := some [sampleValCol] } }]
  , viewport := { width := 400, height := 300 } }

/-- A payload whose categorical shape is present but whose categories array is
empty and whose value series is absent. -/
def emptyCategoriesNoValues : VisualUpdateOptions :=
  { dataViews := some
      [{ categorical := some { categories := some [], values := none } }]
  , viewport := { width := 400, height := 300 } }

/-- A payload whose categories array is empty (values present). -/
def emptyCategoriesOptions : VisualUpdateOptions :=
  { dataViews := some
      [{ categorical := some { categories := some [], values := some [sampleValCol] } }]
  , viewport := { width := 400, height := 300 } }

/-- A payload whose values array is present but empty (categories valid). -/
def emptyValuesOptions : VisualUpdateOptions :=
  { dataViews := some
      [{ categorical := some { categories := some [sampleCatCol], values := some [] } }]
  , viewport := { width := 400, height := 300 } }

/-! ### C1 -/

/-- C1 (counterexample): the claim states that every payload missing any of
the listed pieces, in particular one whose value series is absent, yields the
empty view model without error.  The payload `emptyCategoriesNoValues` has no
value series, yet `visualTransform` throws a TypeError inside its guard
(reading `source` of `categories[0]` on an empty categories array) instead of
returning the empty view model. -/
theorem C1_counterexample :
    visualTransform emptyCategoriesNoValues sampleHost ≠ Except.ok emptyViewModel ∧
    visualTransform emptyCategoriesNoValues sampleHost
      = Except.error "TypeError: cannot read source of undefined" := by
  refine ⟨?_, rfl⟩
  intro h
  rw [show visualTransform emptyCategoriesNoValues sampleHost
      = Except.error "TypeError: cannot read source of undefined" from rfl] at h
  exact Except.noConfusion h

/-- C1 (amended): if the payload lacks the data views, the first data view,
the categorical shape, or the categories array, or if the categories array is
non-empty and its first category lacks a source, or if the categories array
is non-empty with a source present and the value series is absent, then
`visualTransform` returns the empty view model and raises no error. -/
theorem C1_empty_on_missing (options : VisualUpdateOptions) (host : Host)
    (h : options.dataViews = none
      ∨ ∃ dvs, options.dataViews = some dvs ∧
        (dvs = []
         ∨ ∃ dv tl, dvs = dv :: tl ∧
           (dv.categorical = none
            ∨ ∃ c, dv.categorical = some c ∧
              (c.categories = none
               ∨ ∃ cat ctl, c.categories = some (cat :: ctl) ∧
                 (cat.source = none
                  ∨ cat.source.isSome ∧ c.values = none))))) :
    visualTransform options host = Except.ok emptyViewModel := by
  rcases h with h | ⟨dvs, hdvs, h⟩
  · simp [visualTransform, h]
  rcases h with h | ⟨dv, tl, hdv, h⟩
  · subst h; simp [visualTransform, hdvs]
  subst hdv
  rcases h with h | ⟨c, hc, h⟩
  · simp [visualTransform, hdvs, h]
  rcases h with h | ⟨cat, ctl, hcat, h⟩
  · simp [visualTransform, hdvs, hc, h]
  rcases h with h | ⟨hsome, hvals⟩
  · simp [visualTransform, hdvs, hc, hcat, h]
  · obtain ⟨s, hs⟩ := Option.isSome_iff_exists.mp hsome
    simp [visualTransform, hdvs, hc, hcat, hs, hvals]

/-- C1 (witness): the amended theorem applied to the payload with no data
views at all. -/
theorem C1_empty_on_missing_witness :
    visualTransform { dataViews := none, viewport := { width := 0, height := 0 } }
      sampleHost = Except.ok emptyViewModel :=
  C1_empty_on_missing _ _ (Or.inl rfl)

/-! ### C10 -/

/-- C10: the guard checks only truthiness of the arrays.  A payload with an
empty categories array faults inside the guard (reading `source` of the
`undefined` `categories[0]`), and a payload with an empty values array passes
the guard and faults in the construction loop (reading `values` of the
`undefined` `values[0]`); neither is routed to the empty view model. -/
theorem C10_truthy_guard_faults :
    (visualTransform emptyCategoriesOptions sampleHost
        = Except.error "TypeError: cannot read source of undefined" ∧
      visualTransform emptyCategoriesOptions sampleHost ≠ Except.ok emptyViewModel) ∧
    (visualTransform emptyValuesOptions sampleHost
        = Except.error "TypeError: cannot read values of undefined" ∧
      visualTransform emptyValuesOptions sampleHost ≠ Except.ok emptyViewModel) := by
  refine ⟨⟨rfl, ?_⟩, ⟨rfl, ?_⟩⟩
  · intro h
    rw [show visualTransform emptyCategoriesOptions sampleHost
        = Except.error "TypeError: cannot read source of undefined" from rfl] at h
    exact Except.noConfusion h
  · intro h
    rw [show visualTransform emptyValuesOptions sampleHost
        = Except.error "TypeError: cannot read values of undefined" from rfl] at h
    exact Except.noConfusion h

/-! ### Valid payloads -/

/-- Helper: on a payload that passes the guard, `visualTransform` returns the
view model built by the loop over `0 .. max(category length, value length)`,
with `dataMax` read from the first value column. -/
theorem visualTransform_valid (options : VisualUpdateOptions) (host : Host)
    {dv : DataView} {tl : List DataView} {c : DataViewCategorical}
    {category : DataViewCategoryColumn} {ctl : List DataViewCategoryColumn}
    {s : Unit} {dataValue : DataViewValueColumn} {vtl : List DataViewValueColumn}
    (h1 : options.dataViews = some (dv :: tl))
    (h2 : dv.categorical = some c)
    (h3 : c.categories = some (category :: ctl))
    (h4 : category.source = some s)
    (h5 : c.values = some (dataValue :: vtl)) :
    visualTransform options host = Except.ok
      { dataPoints :=
          (List.range (max category.values.length dataValue.values.length)).map
            (fun i =>
              { category := category.values.get? i
                value := dataValue.values.get? i
                color := host.getColor (category.values.get? i)
                selectionID := { nonce := host.builderNonce, index := i } })
      , dataMax := dataValue.maxLocal } := by
  simp [visualTransform, h1, h2, h3, h4, h5]

/-! ### C2 -/

/-- C2: on a payload that passes the guard, `visualTransform` returns exactly
`max (category length) (value length)` data points; point `i` carries the
`i`-th category entry, the `i`-th value entry, the palette color keyed by the
`i`-th category entry, and a selection handle for row index `i`; handles at
distinct row indices are distinct. -/
theorem C2_transform_points (options : VisualUpdateOptions) (host : Host)
    {dv : DataView} {tl : List DataView} {c : DataViewCategorical}
    {category : DataViewCategoryColumn} {ctl : List DataViewCategoryColumn}
    {s : Unit} {dataValue : DataViewValueColumn} {vtl : List DataViewValueColumn}
    (h1 : options.dataViews = some (dv :: tl))
    (h2 : dv.categorical = some c)
    (h3 : c.categories = some (category :: ctl))
    (h4 : category.source = some s)
    (h5 : c.values = some (dataValue :: vtl)) :
    ∃ vm, visualTransform options host = Except.ok vm
      ∧ vm.dataPoints.length = max category.values.length dataValue.values.length
      ∧ (∀ i, i < vm.dataPoints.length →
          vm.dataPoints.get? i = some
            { category := category.values.get? i
              value := dataValue.values.get? i
              color := host.getColor (category.values.get? i)
              selectionID := { nonce := host.builderNonce, index := i } })
      ∧ (∀ i j p q, vm.dataPoints.get? i = some p → vm.dataPoints.get? j = some q →
          i ≠ j → p.selectionID ≠ q.selectionID) := by
  refine ⟨_, visualTransform_valid options host h1 h2 h3 h4 h5, ?_, ?_, ?_⟩
  · simp
  · intro i hi
    simp only [List.length_map, List.length_range] at hi
    rw [List.get?_map, List.get?_range hi, Option.map_some']
  · intro i j p q hp hq hij
    rw [List.get?_map] at hp hq
    rcases Option.map_eq_some'.mp hp with ⟨a, ha, hfa⟩
    rcases Option.map_eq_some'.mp hq with ⟨b, hb, hfb⟩
    have hai : a = i := by
      rcases List.get?_eq_some.mp ha with ⟨hlt, hget⟩
      simpa [List.get_range] using hget.symm
    have hbj : b = j := by
      rcases List.get?_eq_some.mp hb with ⟨hlt, hget⟩
      simpa [List.get_range] using hget.symm
    subst hai hbj
    rw [← hfa, ← hfb]
    simp [SelectionId.mk.injEq]
    intro hn
    exact hij hn

/-- C2 (witness): the sample payload with three equal-length rows yields
three data points with the stated fields and pairwise distinct handles. -/
theorem C2_transform_points_witness :
    ∃ vm, visualTransform sampleOptions sampleHost = Except.ok vm
      ∧ vm.dataPoints.length = max sampleCatCol.values.length sampleValCol.values.length
      ∧ (∀ i, i < vm.dataPoints.length →
          vm.dataPoints.get? i = some
            { category := sampleCatCol.values.get? i
              value := sampleValCol.values.get? i
              color := sampleHost.getColor (sampleCatCol.values.get? i)
              selectionID := { nonce := sampleHost.builderNonce, index := i } })
      ∧ (∀ i j p q, vm.dataPoints.get? i = some p → vm.dataPoints.get? j = some q →
          i ≠ j → p.selectionID ≠ q.selectionID) :=
  C2_transform_points sampleOptions sampleHost rfl rfl rfl rfl rfl

/-! ### C3 -/

/-- C3: the plotting height used for bar geometry and axis placement is the
viewport height minus 25 when `settings.dataPoint.showAxis` is true, and the
viewport height unchanged when it is false; whenever the update completes,
both the recorded plotting height and the axis translation equal it. -/
theorem C3_plot_height (options : VisualUpdateOptions) (settings : VisualSettings)
    (prev : ℕ) (host : Host) :
    (Visual.update options settings prev host).map
        (fun r => (r.plotHeight, r.axisTranslateY))
      = (visualTransform options host).map (fun _ =>
          (if settings.dataPoint.showAxis then options.viewport.height - 25
            else options.viewport.height,
           if settings.dataPoint.showAxis then options.viewport.height - 25
            else options.viewport.height)) := by
  cases h : visualTransform options host with
  | error e => simp [Visual.update, h, Except.map]
  | ok vm => simp [Visual.update, h, Except.map]

/-! ### C5 -/

/-- C5: on a payload that passes the guard, the view model `dataMax` is the
first value column `maxLocal` verbatim; it does not depend on the value
array (the witness instantiates it with a `maxLocal` that is not an element
of the value array). -/
theorem C5_dataMax_verbatim (options : VisualUpdateOptions) (host : Host)
    {dv : DataView} {tl : List DataView} {c : DataViewCategorical}
    {category : DataViewCategoryColumn} {ctl : List DataViewCategoryColumn}
    {s : Unit} {dataValue : DataViewValueColumn} {vtl : List DataViewValueColumn}
    (h1 : options.dataViews = some (dv :: tl))
    (h2 : dv.categorical = some c)
    (h3 : c.categories = some (category :: ctl))
    (h4 : category.source = some s)
    (h5 : c.values = some (dataValue :: vtl)) :
    ∃ vm, visualTransform options host = Except.ok vm
      ∧ vm.dataMax = dataValue.maxLocal :=
  ⟨_, visualTransform_valid options host h1 h2 h3 h4 h5, rfl⟩

/-- A value column whose host-reported maximum 99 is not the maximum of its
value array. -/
def untruthfulMaxValCol : DataViewValueColumn := { values := [1, 2, 3], maxLocal := 99 }

/-- A payload carrying `untruthfulMaxValCol`. -/
def untruthfulMaxOptions : VisualUpdateOptions :=
  { dataViews := some
      [{ categorical := some
          { categories := some [sampleCatCol], values := some [untruthfulMaxValCol] } }]
  , viewport := { width := 400, height := 300 } }

/-- C5 (witness): with value array `[1, 2, 3]` and host-reported maximum 99,
the view model carries 99, which is not even an element of the value array —
so the maximum was not recomputed by scanning. -/
theorem C5_dataMax_verbatim_witness :
    (∃ vm, visualTransform untruthfulMaxOptions sampleHost = Except.ok vm
      ∧ vm.dataMax = (99 : ℚ)) ∧ (99 : ℚ) ∉ untruthfulMaxValCol.values :=
  ⟨C5_dataMax_verbatim untruthfulMaxOptions sampleHost rfl rfl rfl rfl rfl, by decide⟩

/-! ### C6 -/

/-- C6: clicking the bar at index `clicked` sends that bar data point
selection handle to the selection manager; when the continuation fires with a
non-empty active-selection set, every bar gets opacity `0.5` and the clicked
bar is then restored to `1`; with an empty active-selection set every bar is
left at the default opacity `1`. -/
theorem C6_click_highlight :
    (∀ (dataPoints : List BarChartDataPoint) (clicked : ℕ) (p : BarChartDataPoint),
        dataPoints.get? clicked = some p →
        onBarClickToggles dataPoints clicked = some p.selectionID) ∧
    (∀ (n clicked : ℕ) (ids : List SelectionId) (i : ℕ), i < n → ids ≠ [] →
        (clickContinuation n clicked ids).get? i
          = some (if i = clicked then (1 : ℚ) else 1 / 2)) ∧
    (∀ (n clicked : ℕ), clickContinuation n clicked [] = List.replicate n 1) := by
  refine ⟨?_, ?_, ?_⟩
  · intro dataPoints clicked p h
    rw [onBarClickToggles, h]
    rfl
  · intro n clicked ids i hi hids
    have hlen : 0 < ids.length := by
      cases ids with
      | nil => exact absurd rfl hids
      | cons a l => simp
    by_cases hic : i = clicked
    · subst hic
      have hlt : i < ((List.range n).map
          (fun _ => if 0 < ids.length then (1 / 2 : ℚ) else 1)).length := by
        simpa using hi
      simp only [clickContinuation]
      rw [List.get?_set_eq_of_lt 1 hlt]
      simp
    · simp only [clickContinuation]
      rw [List.get?_set_ne _ _ (fun h => hic h.symm),
        List.get?_map, List.get?_range hi]
      simp [hlen, hic]
  · intro n clicked
    simp [clickContinuation, List.map_const', List.set_replicate_self]

/-- The first sample data point, as built for row 0 of the sample payload. -/
def q1Point : BarChartDataPoint :=
  { value := some 10, category := some "Q1", color := "#111111",
    selectionID := { nonce := 0, index := 0 } }

/-- The second sample data point, as built for row 1 of the sample payload. -/
def q2Point : BarChartDataPoint :=
  { value := some 20, category := some "Q2", color := "#111111",
    selectionID := { nonce := 0, index := 1 } }

/-- C6 (witness): three bars, bar 1 clicked.  The toggle carries the handle
of bar 1; with one active id the opacities are 0.5, 1, 0.5; with no active id
the continuation leaves all three bars at opacity 1. -/
theorem C6_click_highlight_witness :
    (onBarClickToggles [q1Point, q2Point] 1 = some { nonce := 0, index := 1 }) ∧
    ((clickContinuation 3 1 [{ nonce := 0, index := 1 }]).get? 0 = some (1 / 2 : ℚ)) ∧
    ((clickContinuation 3 1 [{ nonce := 0, index := 1 }]).get? 1 = some (1 : ℚ)) ∧
    (clickContinuation 3 1 [] = List.replicate 3 1) := by
  refine ⟨C6_click_highlight.1 [q1Point, q2Point] 1 q2Point rfl, ?_, ?_,
    C6_click_highlight.2.2 3 1⟩
  · have h := C6_click_highlight.2.1 3 1 [{ nonce := 0, index := 1 }] 0
      (by decide) (by decide)
    simpa using h
  · have h := C6_click_highlight.2.1 3 1 [{ nonce := 0, index := 1 }] 1
      (by decide) (by decide)
    simpa using h

/-! ### C7 -/

/-- C7: `visualTransform` applied twice to the same payload, with hosts whose
palettes agree as functions of the category key (memoization), yields data
points that agree pointwise in category, value and color — even when the
selection-id builder sessions differ. -/
theorem C7_transform_deterministic (options : VisualUpdateOptions) (h1 h2 : Host)
    (hcol : h1.getColor = h2.getColor) :
    (visualTransform options h1).map
        (fun vm => vm.dataPoints.map (fun p => (p.category, p.value, p.color)))
      = (visualTransform options h2).map
        (fun vm => vm.dataPoints.map (fun p => (p.category, p.value, p.color))) := by
  cases hdvs : options.dataViews with
  | none => simp [visualTransform, hdvs]
  | some dvs =>
    cases dvs with
    | nil => simp [visualTransform, hdvs]
    | cons dv tl =>
      cases hc : dv.categorical with
      | none => simp [visualTransform, hdvs, hc]
      | some c =>
        cases hcats : c.categories with
        | none => simp [visualTransform, hdvs, hc, hcats]
        | some cats =>
          cases cats with
          | nil => simp [visualTransform, hdvs, hc, hcats]
          | cons cat ctl =>
            cases hsrc : cat.source with
            | none => simp [visualTransform, hdvs, hc, hcats, hsrc]
            | some s =>
              cases hvals : c.values with
              | none => simp [visualTransform, hdvs, hc, hcats, hsrc, hvals]
              | some vals =>
                cases vals with
                | nil => simp [visualTransform, hdvs, hc, hcats, hsrc, hvals]
                | cons dataValue vtl =>
                  simp only [visualTransform, hdvs, hc, hcats, hsrc, hvals,
                    List.head?_cons]
                  rw [hcol]
                  simp [Except.map, List.map_map, Function.comp]

/-- The sample host of a later builder session: same palette function, fresh
selection-id wrappers. -/
def sampleHostLater : Host := { getColor := fun _ => "#111111", builderNonce := 1 }

/-- C7 (witness): the sample payload transformed under the two sessions of
the same palette yields pointwise equal category, value and color. -/
theorem C7_transform_deterministic_witness :
    (visualTransform sampleOptions sampleHost).map
        (fun vm => vm.dataPoints.map (fun p => (p.category, p.value, p.color)))
      = (visualTransform sampleOptions sampleHostLater).map
        (fun vm => vm.dataPoints.map (fun p => (p.category, p.value, p.color))) :=
  C7_transform_deterministic sampleOptions sampleHost sampleHostLater rfl

/-! ### C8 -/

/-- C8 (counterexample): for the sample payload at viewport 400 by 300 with
`showAxis = true`, the axis font size set by `update` is
`0.04 * min (300 - 25) 400 = 11`, whereas 0.04 times the smaller of the two
viewport dimensions is `0.04 * min 300 400 = 12`. -/
theorem C8_counterexample :
    (Visual.update sampleOptions { dataPoint := { showAxis := true } } 0 sampleHost).map
        (fun r => r.fontSize) = Except.ok 11 ∧
    min sampleOptions.viewport.height sampleOptions.viewport.width * (4 / 100) = 12 ∧
    (11 : ℚ) ≠ 12 := by
  refine ⟨?_, ?_, by norm_num⟩
  · simp only [Visual.update, visualTransform, sampleOptions, sampleHost, sampleCatCol,
      sampleValCol, Except.map, List.head?_cons]
    norm_num
  · simp only [sampleOptions]
    norm_num

/-- C8 (amended): on every completing update the axis label font size is
0.04 times the smaller of the viewport width and the plotting height, where
the plotting height is the viewport height minus 25 when
`settings.dataPoint.showAxis` is true and the viewport height otherwise. -/
theorem C8_font_size (options : VisualUpdateOptions) (settings : VisualSettings)
    (prev : ℕ) (host : Host) :
    (Visual.update options settings prev host).map (fun r => r.fontSize)
      = (visualTransform options host).map (fun _ =>
          min (if settings.dataPoint.showAxis then options.viewport.height - 25
                else options.viewport.height)
            options.viewport.width * (4 / 100)) := by
  cases h : visualTransform options host with
  | error e => simp [Visual.update, h, Except.map]
  | ok vm => simp [Visual.update, h, Except.map]

/-! ### C9 -/

/-- C9: whenever an update completes, the number of bar elements left in the
bar container (previous count, plus entered, minus exited) equals the length
of that update data-point sequence; in particular an update carrying a data
view with no categorical data completes without error and leaves zero bar
elements even when five bars were present before. -/
theorem C9_reconciliation :
    (∀ (options : VisualUpdateOptions) (settings : VisualSettings) (prev : ℕ)
        (host : Host),
      (Visual.update options settings prev host).map (fun r => r.barCount)
        = (visualTransform options host).map (fun vm => vm.dataPoints.length)) ∧
    (Visual.update
        { dataViews := some [{ categorical := none }]
        , viewport := { width := 100, height := 100 } }
        { dataPoint := { showAxis := false } } 5 sampleHost).map (fun r => r.barCount)
      = Except.ok 0 := by
  constructor
  · intro options settings prev host
    cases h : visualTransform options host with
    | error e => simp [Visual.update, h, Except.map]
    | ok vm =>
      simp [Visual.update, h, Except.map]
  · decide

/-! ### C4 -/

/-- The third sample data point, as built for row 2 of the sample payload. -/
def q3Point : BarChartDataPoint :=
  { value := some 5, category := some "Q3", color := "#111111",
    selectionID := { nonce := 0, index := 2 } }

/-- The view model produced for the sample payload. -/
def sampleViewModel : BarChartViewModel :=
  { dataPoints := [q1Point, q2Point, q3Point], dataMax := 20 }

/-- C4: each bar is laid out by the two scales — width is the band width of
the ordinal scale over `[0, width]` with inner padding 1/10 and outer padding
2/10, x is the band start of the bar category, y is the linear value scale
(domain `[0, dataMax]`, range `[plotHeight, 0]`) applied to the bar value,
height is `plotHeight` minus that, and fill is the data point color.  The
value scale maps the domain endpoints 0 and `dataMax` to `plotHeight` and 0,
and consecutive bands are evenly spaced.  For the sample scenario (viewport
400 by 300, `showAxis = false`, categories Q1 Q2 Q3, values 10 20 5,
`dataMax = 20`) three bars are rendered, the Q2 bar with height 300 and the
Q3 bar with height 75. -/
theorem C4_bar_geometry :
    (∀ (options : VisualUpdateOptions) (settings : VisualSettings) (prev : ℕ)
        (host : Host) (vm : BarChartViewModel) (i : ℕ) (d : BarChartDataPoint) (v : ℚ),
      visualTransform options host = Except.ok vm →
      vm.dataPoints.get? i = some d →
      d.value = some v →
      (Visual.update options settings prev host).map (fun r => r.bars.get? i)
        = Except.ok (some
            { width := rangeBandWidth
                (ordinalDomain (vm.dataPoints.map (fun p => p.category))).length
                options.viewport.width (1 / 10) (2 / 10)
              height := some ((if settings.dataPoint.showAxis
                  then options.viewport.height - 25 else options.viewport.height)
                - linearScale 0 vm.dataMax
                    (if settings.dataPoint.showAxis
                      then options.viewport.height - 25 else options.viewport.height)
                    0 v)
              x := bandPosition
                (ordinalDomain (vm.dataPoints.map (fun p => p.category))).length
                options.viewport.width (1 / 10) (2 / 10)
                ((ordinalDomain (vm.dataPoints.map (fun p => p.category))).indexOf d.category)
              y := some (linearScale 0 vm.dataMax
                (if settings.dataPoint.showAxis
                  then options.viewport.height - 25 else options.viewport.height)
                0 v)
              fill := d.color })) ∧
    (∀ m ph : ℚ, m ≠ 0 → linearScale 0 m ph 0 0 = ph ∧ linearScale 0 m ph 0 m = 0) ∧
    (∀ (n : ℕ) (w p o : ℚ) (i : ℕ),
      bandPosition n w p o (i + 1) - bandPosition n w p o i = bandStep n w p o) ∧
    ((Visual.update sampleOptions { dataPoint := { showAxis := false } } 0
        sampleHost).map
        (fun r => (r.bars.length,
          (r.bars.get? 1).map (fun b => b.height),
          (r.bars.get? 2).map (fun b => b.height)))
      = Except.ok (3, some (some 300), some (some 75))) := by
  refine ⟨?_, ?_, ?_, ?_⟩
  · intro options settings prev host vm i d v ht hd hv
    rw [Visual.update, ht]
    simp only [Except.map]
    rw [List.get?_map, hd, Option.map_some']
    simp [hv]
  · intro m ph hm
    constructor
    · simp [linearScale]
    · field_simp [linearScale]
      ring
  · intro n w p o i
    simp only [bandPosition, bandStep]
    push_cast
    ring
  · rw [Visual.update, show visualTransform sampleOptions sampleHost
      = Except.ok sampleViewModel from rfl]
    simp only [Except.map, sampleViewModel, q1Point, q2Point, q3Point, sampleOptions]
    norm_num [linearScale]

/-- C4 (witness): the bar-attribute formulas applied to row 1 (category Q2,
value 20) of the sample scenario, and the value-scale endpoint facts at
`dataMax = 20`, `plotHeight = 300`. -/
theorem C4_bar_geometry_witness :
    ((linearScale 0 20 300 0 0 = 300 ∧ linearScale 0 20 300 0 (20 : ℚ) = 0) ∧
    (Visual.update sampleOptions { dataPoint := { showAxis := false } } 0
        sampleHost).map (fun r => r.bars.get? 1)
      = Except.ok (some
          { width := rangeBandWidth
              (ordinalDomain (sampleViewModel.dataPoints.map (fun p => p.category))).length
              sampleOptions.viewport.width (1 / 10) (2 / 10)
            height := some ((if ({ dataPoint := { showAxis := false } }
                  : VisualSettings).dataPoint.showAxis
                then sampleOptions.viewport.height - 25
                else sampleOptions.viewport.height)
              - linearScale 0 sampleViewModel.dataMax
                  (if ({ dataPoint := { showAxis := false } }
                      : VisualSettings).dataPoint.showAxis
                    then sampleOptions.viewport.height - 25
                    else sampleOptions.viewport.height)
                  0 20)
            x := bandPosition
              (ordinalDomain (sampleViewModel.dataPoints.map (fun p => p.category))).length
              sampleOptions.viewport.width (1 / 10) (2 / 10)
              ((ordinalDomain (sampleViewModel.dataPoints.map
                  (fun p => p.category))).indexOf q2Point.category)
            y := some (linearScale 0 sampleViewModel.dataMax
              (if ({ dataPoint := { showAxis := false } }
                  : VisualSettings).dataPoint.showAxis
                then sampleOptions.viewport.height - 25
                else sampleOptions.viewport.height)
              0 20)
            fill := q2Point.color })) :=
  ⟨C4_bar_geometry.2.1 20 300 (by norm_num),
    C4_bar_geometry.1 sampleOptions { dataPoint := { showAxis := false } } 0
      sampleHost sampleViewModel 1 q2Point 20 rfl rfl rfl⟩
